import Mathlib

/-!
Shallow embedding of the hoa-js cloudflare-rate-limit middleware package.

Sources embedded:
  - src/src/KVRateLimiter.js  : `KVRateLimiter` (construction-time validation) and the
    returned middleware `kvRateLimiter`, with `defaultSuccessHandler` / `defaultErrorHandler`.
  - the RateLimiter module     : `RateLimiter` validation and middleware `rateLimiter`.
  - utils.js                   : `assert` (throws TypeError on a false condition) and
    `getBinding` (string name looked up in ctx.env, or factory invoked with ctx).

Modelling conventions:
  - JavaScript values relevant to the option checks are modelled by `JSVal`; numbers are
    modelled as exact integers or NaN (non-integer doubles and infinities play no role in
    the claims, and integer arithmetic here stays far below 2^53 so exactness holds).
  - `parseInt` is modelled on this domain: non-string non-number inputs coerce through
    their canonical string form to NaN, integer numbers re-parse to themselves, and
    strings go through leading-whitespace / sign / hex-or-decimal prefix parsing.
  - The external counting primitive (the cloudflare-kv-rate-limit package) is a black box
    per the spec; its per-request output is the `Decision` record supplied in `ReqEnv`.
  - A middleware run is a pure function from the validated configuration and the
    per-request data (key generator result, environment bindings, decision, downstream
    behaviour, clock) to a `RunOut`: the request outcome (normal return or raised error),
    the ordered trace of observable calls, and the response headers that were set.
-/

/-- JavaScript numbers as used by the option validator: an exact integer or NaN. -/
inductive JSNumber where
  | nan : JSNumber
  | int : Int → JSNumber
deriving DecidableEq, Repr

/-- JavaScript values as used by the option checks and key-generator results. -/
inductive JSVal where
  | undefined : JSVal
  | nullVal : JSVal
  | boolVal : Bool → JSVal
  | numVal : JSNumber → JSVal
  | strVal : String → JSVal
  | funcVal : JSVal
deriving DecidableEq, Repr

/-- JavaScript truthiness: undefined, null, false, 0, NaN and the empty string are falsy. -/
def jsTruthy : JSVal → Bool
  | .undefined => false
  | .nullVal => false
  | .boolVal b => b
  | .numVal .nan => false
  | .numVal (.int i) => i != 0
  | .strVal s => s.length != 0
  | .funcVal => true

/-- Models the JavaScript check typeof v === "string". -/
def typeofIsString : JSVal → Bool
  | .strVal _ => true
  | _ => false

/-- Models the JavaScript check typeof v === "function". -/
def typeofIsFunction : JSVal → Bool
  | .funcVal => true
  | _ => false

/-- JavaScript whitespace skipped by parseInt (ASCII subset). -/
def isJsWs (c : Char) : Bool :=
  c = ' ' || c = '\t' || c = '\n' || c = '\r' || c = '\x0b' || c = '\x0c'

/-- Drop leading parseInt whitespace. -/
def dropWs : List Char → List Char
  | [] => []
  | c :: cs => if isJsWs c then dropWs cs else c :: cs

/-- Value of a decimal digit character, if any. -/
def decDigitVal : Char → Option Nat
  | c => if '0' ≤ c ∧ c ≤ '9' then some (c.toNat - 48) else none

/-- Value of a hexadecimal digit character, if any. -/
def hexDigitVal : Char → Option Nat
  | c =>
    if '0' ≤ c ∧ c ≤ '9' then some (c.toNat - 48)
    else if 'a' ≤ c ∧ c ≤ 'f' then some (c.toNat - 87)
    else if 'A' ≤ c ∧ c ≤ 'F' then some (c.toNat - 55)
    else none

/-- Accumulate the maximal digit prefix; the Bool records whether any digit was read. -/
def takeDigits (val : Char → Option Nat) (base : Nat) : List Char → Nat → Bool → Nat × Bool
  | [], acc, found => (acc, found)
  | c :: cs, acc, found =>
    match val c with
    | some d => takeDigits val base cs (acc * base + d) true
    | none => (acc, found)

/-- Finish a parse: sign times accumulated value, or NaN when no digit was read. -/
def finishParse (sgn : Int) (p : Nat × Bool) : JSNumber :=
  if p.2 then .int (sgn * Int.ofNat p.1) else .nan

/-- parseInt on a character list: whitespace, optional sign, hex prefix or decimal run. -/
def jsParseIntList (cs : List Char) : JSNumber :=
  let cs := dropWs cs
  match cs with
  | '-' :: rest =>
    match rest with
    | '0' :: 'x' :: r => finishParse (-1) (takeDigits hexDigitVal 16 r 0 false)
    | '0' :: 'X' :: r => finishParse (-1) (takeDigits hexDigitVal 16 r 0 false)
    | r => finishParse (-1) (takeDigits decDigitVal 10 r 0 false)
  | '+' :: rest =>
    match rest with
    | '0' :: 'x' :: r => finishParse 1 (takeDigits hexDigitVal 16 r 0 false)
    | '0' :: 'X' :: r => finishParse 1 (takeDigits hexDigitVal 16 r 0 false)
    | r => finishParse 1 (takeDigits decDigitVal 10 r 0 false)
  | '0' :: 'x' :: r => finishParse 1 (takeDigits hexDigitVal 16 r 0 false)
  | '0' :: 'X' :: r => finishParse 1 (takeDigits hexDigitVal 16 r 0 false)
  | r => finishParse 1 (takeDigits decDigitVal 10 r 0 false)

/-- parseInt applied to a JSVal, via its canonical string form: booleans, null,
undefined and functions stringify to digit-free words and give NaN; an integer number
stringifies to its decimal form and re-parses to itself; NaN gives NaN. -/
def jsParseInt : JSVal → JSNumber
  | .strVal s => jsParseIntList s.toList
  | .numVal (.int i) => .int i
  | _ => .nan

/-- Models Number.isFinite on the embedded number domain. -/
def numIsFinite : JSNumber → Bool
  | .nan => false
  | .int _ => true

/-- Models the JavaScript comparison n >= k (false on NaN). -/
def numGe (n : JSNumber) (k : Int) : Bool :=
  match n with
  | .nan => false
  | .int i => decide (k ≤ i)

/-- Models the JavaScript comparison a <= b (false when either side is NaN). -/
def numLe (a b : JSNumber) : Bool :=
  match a, b with
  | .int i, .int j => decide (i ≤ j)
  | _, _ => false

/-- Integer content of an embedded number (0 on NaN; only used after a finiteness check). -/
def numToInt : JSNumber → Int
  | .nan => 0
  | .int i => i

/-- JavaScript destructuring default: the default applies exactly when the value is undefined. -/
def defaultUndef (v d : JSVal) : JSVal :=
  match v with
  | .undefined => d
  | _ => v

/-- String content of an embedded value (empty on non-strings; used after a string check). -/
def stringOf : JSVal → String
  | .strVal s => s
  | _ => ""

/-- Raw options passed to the KVRateLimiter constructor (undefined models an absent field). -/
structure KVOptions where
  binding : JSVal
  prefixStr : JSVal
  limit : JSVal
  period : JSVal
  interval : JSVal
  keyGenerator : JSVal
  successHandler : JSVal
  errorHandler : JSVal
deriving DecidableEq, Repr

/-- Validated numeric and string configuration produced by the KVRateLimiter constructor. -/
structure KVValidated where
  prefixStr : String
  limit : Int
  period : Int
  interval : Int
deriving DecidableEq, Repr

/-- Assertion message for the binding type check. -/
def msgBinding : String := "options.binding must be a string or a function"

/-- Assertion message for the prefix check. -/
def msgPrefix : String := "options.prefix must be a non-empty string"

/-- Assertion message for the limit range check. -/
def msgLimit : String := "options.limit must be >= 1"

/-- Assertion message for the period range check. -/
def msgPeriod : String := "options.period must be >= 60 seconds (Cloudflare KV TTL minimum)"

/-- Assertion message for the interval lower-bound check. -/
def msgInterval : String := "options.interval must be >= 0"

/-- Assertion message for the interval-versus-period check. -/
def msgIntervalPeriod : String := "options.interval must be <= options.period"

/-- Assertion message for the keyGenerator type check. -/
def msgKeyGenerator : String := "options.keyGenerator must be a function"

/-- Assertion message for the successHandler type check. -/
def msgSuccessHandler : String := "options.successHandler must be a function"

/-- Assertion message for the errorHandler type check. -/
def msgErrorHandler : String := "options.errorHandler must be a function"

/-- Prefix value after the destructuring default. -/
def kvPrefixVal (o : KVOptions) : JSVal :=
  defaultUndef o.prefixStr (.strVal "ratelimit:")

/-- Interval value after the destructuring default. -/
def kvIntervalVal (o : KVOptions) : JSVal :=
  defaultUndef o.interval (.numVal (.int 0))

/-- Binding assert condition: typeof binding is string or function. -/
def kvCheckBinding (o : KVOptions) : Bool :=
  typeofIsString o.binding || typeofIsFunction o.binding

/-- Prefix assert condition: a non-empty string after defaulting. -/
def kvCheckPrefix (o : KVOptions) : Bool :=
  typeofIsString (kvPrefixVal o) && decide (0 < (stringOf (kvPrefixVal o)).length)

/-- Limit assert condition: parseInt result finite and at least 1. -/
def kvCheckLimit (o : KVOptions) : Bool :=
  numIsFinite (jsParseInt o.limit) && numGe (jsParseInt o.limit) 1

/-- Period assert condition: parseInt result finite and at least 60. -/
def kvCheckPeriod (o : KVOptions) : Bool :=
  numIsFinite (jsParseInt o.period) && numGe (jsParseInt o.period) 60

/-- Interval assert condition: parseInt result finite and at least 0. -/
def kvCheckInterval (o : KVOptions) : Bool :=
  numIsFinite (jsParseInt (kvIntervalVal o)) && numGe (jsParseInt (kvIntervalVal o)) 0

/-- Interval-versus-period assert condition: interval at most period. -/
def kvCheckIntervalPeriod (o : KVOptions) : Bool :=
  numLe (jsParseInt (kvIntervalVal o)) (jsParseInt o.period)

/-- KeyGenerator assert condition: typeof keyGenerator is function. -/
def kvCheckKeyGenerator (o : KVOptions) : Bool :=
  typeofIsFunction o.keyGenerator

/-- SuccessHandler assert condition: a function after defaulting. -/
def kvCheckSuccessHandler (o : KVOptions) : Bool :=
  typeofIsFunction (defaultUndef o.successHandler .funcVal)

/-- ErrorHandler assert condition: a function after defaulting. -/
def kvCheckErrorHandler (o : KVOptions) : Bool :=
  typeofIsFunction (defaultUndef o.errorHandler .funcVal)

/-- Construction-time validation of KVRateLimiter: destructuring defaults, parseInt
coercion of the numeric fields, then the assert sequence of the source in order (assert
throws a TypeError carrying the message when its condition is false); the result is the
first TypeError message or the validated configuration. -/
def KVRateLimiter_validate (o : KVOptions) : Except String KVValidated :=
  if kvCheckBinding o = false then .error msgBinding
  else if kvCheckPrefix o = false then .error msgPrefix
  else if kvCheckLimit o = false then .error msgLimit
  else if kvCheckPeriod o = false then .error msgPeriod
  else if kvCheckInterval o = false then .error msgInterval
  else if kvCheckIntervalPeriod o = false then .error msgIntervalPeriod
  else if kvCheckKeyGenerator o = false then .error msgKeyGenerator
  else if kvCheckSuccessHandler o = false then .error msgSuccessHandler
  else if kvCheckErrorHandler o = false then .error msgErrorHandler
  else .ok { prefixStr := stringOf (kvPrefixVal o)
           , limit := numToInt (jsParseInt o.limit)
           , period := numToInt (jsParseInt o.period)
           , interval := numToInt (jsParseInt (kvIntervalVal o)) }

/-- Raw options passed to the RateLimiter constructor (undefined models an absent field). -/
structure RLOptions where
  binding : JSVal
  keyGenerator : JSVal
  successHandler : JSVal
  errorHandler : JSVal
deriving DecidableEq, Repr

/-- Binding assert condition of RateLimiter. -/
def rlCheckBinding (o : RLOptions) : Bool :=
  typeofIsString o.binding || typeofIsFunction o.binding

/-- KeyGenerator assert condition of RateLimiter. -/
def rlCheckKeyGenerator (o : RLOptions) : Bool :=
  typeofIsFunction o.keyGenerator

/-- SuccessHandler assert condition of RateLimiter. -/
def rlCheckSuccessHandler (o : RLOptions) : Bool :=
  typeofIsFunction (defaultUndef o.successHandler .funcVal)

/-- ErrorHandler assert condition of RateLimiter. -/
def rlCheckErrorHandler (o : RLOptions) : Bool :=
  typeofIsFunction (defaultUndef o.errorHandler .funcVal)

/-- Construction-time validation of RateLimiter: the assert sequence of the source in order. -/
def RateLimiter_validate (o : RLOptions) : Except String Unit :=
  if rlCheckBinding o = false then .error msgBinding
  else if rlCheckKeyGenerator o = false then .error msgKeyGenerator
  else if rlCheckSuccessHandler o = false then .error msgSuccessHandler
  else if rlCheckErrorHandler o = false then .error msgErrorHandler
  else .ok ()

/-- Error message of a validation result, if any. -/
def validationError {α : Type} : Except String α → Option String
  | .error m => some m
  | .ok _ => none

/-- Ordered constraint list of the window-counter validator, as the spec states it:
binding type, then prefix non-emptiness, then limit range, then period range, then
interval range, then the interval-versus-period relation, then keyGenerator type, then
successHandler type, then errorHandler type; each constraint carries its field-naming
message. -/
def kvChecks (o : KVOptions) : List (Bool × String) :=
  [ (kvCheckBinding o, msgBinding)
  , (kvCheckPrefix o, msgPrefix)
  , (kvCheckLimit o, msgLimit)
  , (kvCheckPeriod o, msgPeriod)
  , (kvCheckInterval o, msgInterval)
  , (kvCheckIntervalPeriod o, msgIntervalPeriod)
  , (kvCheckKeyGenerator o, msgKeyGenerator)
  , (kvCheckSuccessHandler o, msgSuccessHandler)
  , (kvCheckErrorHandler o, msgErrorHandler) ]

/-- Ordered constraint list of the service-backed validator, as the spec states it. -/
def rlChecks (o : RLOptions) : List (Bool × String) :=
  [ (rlCheckBinding o, msgBinding)
  , (rlCheckKeyGenerator o, msgKeyGenerator)
  , (rlCheckSuccessHandler o, msgSuccessHandler)
  , (rlCheckErrorHandler o, msgErrorHandler) ]

/-- Message of the first violated constraint in an ordered constraint list. -/
def firstFailMsg : List (Bool × String) → Option String
  | [] => none
  | (ok, msg) :: rest => if ok = false then some msg else firstFailMsg rest

/-- Spec predicate for the amended C3 claim: some constraint of the window-counter
configuration is violated (pure disjunction, no ordering). The binding constraint
accepts any string (empty included), and keyGenerator must be a function whether
present or absent. -/
def amendedViolatedKV (o : KVOptions) : Bool :=
  !(kvCheckBinding o) || !(kvCheckPrefix o) || !(kvCheckLimit o) || !(kvCheckPeriod o)
  || !(kvCheckInterval o) || !(kvCheckIntervalPeriod o) || !(kvCheckKeyGenerator o)
  || !(kvCheckSuccessHandler o) || !(kvCheckErrorHandler o)

/-- Whether a value is a non-empty string. -/
def isNonEmptyString : JSVal → Bool
  | .strVal s => decide (0 < s.length)
  | _ => false

/-- Spec predicate for claim C3 exactly as stated: a configuration invariant of the
listed ones is violated. The claim requires the binding to be a non-empty string or a
callable, and lists the keyGenerator, successHandler and errorHandler constraints only
for present values; the numeric invariants match the spec (violated also when the
coerced value is NaN, since a NaN comparison is false). -/
def origViolatedC3 (o : KVOptions) : Bool :=
  !(isNonEmptyString o.binding || typeofIsFunction o.binding)
  || !(kvCheckPrefix o) || !(kvCheckLimit o) || !(kvCheckPeriod o)
  || !(kvCheckInterval o) || !(kvCheckIntervalPeriod o)
  || (!(o.keyGenerator = .undefined) && !(typeofIsFunction o.keyGenerator))
  || (!(o.successHandler = .undefined) && !(typeofIsFunction o.successHandler))
  || (!(o.errorHandler = .undefined) && !(typeofIsFunction o.errorHandler))

/-- Errors a middleware run can raise: a TypeError from assert, the structured
rate-limit error raised through ctx.throw (status, message, headers), or an opaque
error from downstream processing or a custom handler. -/
inductive JSErr where
  | typeError : String → JSErr
  | httpError : Nat → String → List (String × String) → JSErr
  | userError : Nat → JSErr
deriving DecidableEq, Repr

/-- Observable calls made by one middleware run, in order. Handler events carry the
(limit, remaining, reset) argument triple of the window-counter strategy, or none for
the service-backed strategy whose handlers receive only the request context. -/
inductive Event where
  | nextCall : Event
  | bindingResolve : Event
  | decisionCall : Event
  | successCall : Option (Int × Int × Int) → Event
  | errorCall : Option (Int × Int × Int) → Event
deriving DecidableEq, Repr

/-- Decision outcome produced by a strategy for one request. -/
structure Decision where
  success : Bool
  remaining : Int
  reset : Int
deriving DecidableEq, Repr

/-- Resolved binding value: its truthiness and which capabilities it exposes. A nullish
resolution (missing environment entry, factory returning null) has truthy = false. -/
structure BindingVal where
  truthy : Bool
  hasGet : Bool
  hasPut : Bool
  hasLimit : Bool
deriving DecidableEq, Repr

/-- Configured binding reference: an environment name or a factory function. -/
inductive BindingRef where
  | name : String → BindingRef
  | factory : BindingRef
deriving DecidableEq, Repr

/-- Configured handler: the built-in default, or a user handler that either completes
or raises the given error. -/
inductive HandlerSpec where
  | defaultHandler : HandlerSpec
  | custom : Option JSErr → HandlerSpec
deriving DecidableEq, Repr

/-- Validated configuration the kvRateLimiter middleware closes over. -/
structure KVConfig where
  binding : BindingRef
  prefixStr : String
  limit : Int
  period : Int
  interval : Int
  successHandler : HandlerSpec
  errorHandler : HandlerSpec

/-- Validated configuration the rateLimiter middleware closes over. -/
structure RLConfig where
  binding : BindingRef
  successHandler : HandlerSpec
  errorHandler : HandlerSpec

/-- Per-request data: the key-generator result, the environment binding map, the factory
result, the decision the counting primitive or service returns, whether downstream
processing raises, and the current clock in milliseconds. -/
structure ReqEnv where
  keyResult : JSVal
  envMap : String → BindingVal
  factoryResult : BindingVal
  decision : Decision
  nextThrows : Option JSErr
  nowMs : Nat

/-- Models getBinding from utils.js: a string name is looked up in ctx.env, a factory
is invoked with the request context. -/
def getBinding (env : ReqEnv) : BindingRef → BindingVal
  | .name s => env.envMap s
  | .factory => env.factoryResult

/-- Capability assertion of kvRateLimiter: binding truthy with get() and put(). -/
def kvBindingOk (b : BindingVal) : Bool :=
  b.truthy && b.hasGet && b.hasPut

/-- Capability assertion of rateLimiter: binding truthy with limit(). -/
def rlBindingOk (b : BindingVal) : Bool :=
  b.truthy && b.hasLimit

/-- Runtime assertion message of kvRateLimiter for an unusable binding. -/
def kvBindingRuntimeMsg : String :=
  "options.binding must be a KV namespace name or return a Cloudflare KV namespace exposing get() and put()"

/-- Runtime assertion message of rateLimiter for an unusable binding. -/
def rlBindingRuntimeMsg : String :=
  "options.binding must be a Rate Limiter binding name or return a Cloudflare Rate Limiter binding exposing limit()"

/-- Outcome of invoking downstream processing. -/
def nextOutcome (env : ReqEnv) : Except JSErr Unit :=
  match env.nextThrows with
  | none => .ok ()
  | some e => .error e

/-- JavaScript try/finally result: a finally block that raises replaces the body
outcome; a finally block that completes leaves the body outcome unchanged. -/
def tryFinallyResult (body fin : Except JSErr Unit) : Except JSErr Unit :=
  match fin with
  | .ok _ => body
  | .error e => .error e

/-- Models Math.ceil(Date.now() / 1000): the clock in milliseconds rounded up to seconds. -/
def epochCeil (nowMs : Nat) : Int :=
  ((nowMs : Int) + 999) / 1000

/-- Models Math.ceil(Date.now() / 1000 + reset), the absolute reset timestamp of the
default handlers. -/
def resetEpoch (nowMs : Nat) (reset : Int) : Int :=
  ((nowMs : Int) + 1000 * reset + 999) / 1000

/-- Headers set by defaultSuccessHandler of KVRateLimiter.js via ctx.res.set. -/
def defaultSuccessHeaders (nowMs : Nat) (limit remaining reset : Int) : List (String × String) :=
  [ ("X-RateLimit-Limit", toString limit)
  , ("X-RateLimit-Remaining", toString remaining)
  , ("X-RateLimit-Reset", toString (resetEpoch nowMs reset)) ]

/-- Headers carried by the error defaultErrorHandler of KVRateLimiter.js raises. -/
def defaultErrorHeaders (nowMs : Nat) (limit remaining reset : Int) : List (String × String) :=
  [ ("X-RateLimit-Limit", toString limit)
  , ("X-RateLimit-Remaining", toString remaining)
  , ("X-RateLimit-Reset", toString (resetEpoch nowMs reset))
  , ("Retry-After", toString reset) ]

/-- Running the success handler of kvRateLimiter: outcome and headers it sets. The
default sets the three rate-limit headers and completes; a custom handler sets none
here and completes or raises per its specification. -/
def runSuccessHandlerKV (h : HandlerSpec) (nowMs : Nat) (limit remaining reset : Int) :
    Except JSErr Unit × List (String × String) :=
  match h with
  | .defaultHandler => (.ok (), defaultSuccessHeaders nowMs limit remaining reset)
  | .custom none => (.ok (), [])
  | .custom (some e) => (.error e, [])

/-- Running the error handler of kvRateLimiter: the default raises the 429 error
with the four rate-limit headers through ctx.throw. -/
def runErrorHandlerKV (h : HandlerSpec) (nowMs : Nat) (limit remaining reset : Int) :
    Except JSErr Unit × List (String × String) :=
  match h with
  | .defaultHandler =>
    (.error (.httpError 429 "Too Many Requests" (defaultErrorHeaders nowMs limit remaining reset)), [])
  | .custom none => (.ok (), [])
  | .custom (some e) => (.error e, [])

/-- Running the success handler of rateLimiter: the default is a no-op. -/
def runSuccessHandlerRL (h : HandlerSpec) : Except JSErr Unit :=
  match h with
  | .defaultHandler => .ok ()
  | .custom none => .ok ()
  | .custom (some e) => .error e

/-- Running the error handler of rateLimiter: the default raises 429 with no headers. -/
def runErrorHandlerRL (h : HandlerSpec) : Except JSErr Unit :=
  match h with
  | .defaultHandler => .error (.httpError 429 "Too Many Requests" [])
  | .custom none => .ok ()
  | .custom (some e) => .error e

/-- Result of one middleware run: outcome, ordered call trace, response headers set. -/
structure RunOut where
  result : Except JSErr Unit
  trace : List Event
  headers : List (String × String)
deriving Repr

/-- The kvRateLimiter middleware body from KVRateLimiter.js: skip on a falsy key;
resolve and assert the binding; obtain the decision from the counting primitive; on
failure run the error handler and return; on success run next inside try with the
success handler in the finally block. -/
def kvRateLimiter (cfg : KVConfig) (env : ReqEnv) : RunOut :=
  if jsTruthy env.keyResult = false then
    { result := nextOutcome env, trace := [.nextCall], headers := [] }
  else
    let kvBinding := getBinding env cfg.binding
    if kvBindingOk kvBinding = false then
      { result := .error (.typeError kvBindingRuntimeMsg), trace := [.bindingResolve], headers := [] }
    else
      let d := env.decision
      if d.success = false then
        let h := runErrorHandlerKV cfg.errorHandler env.nowMs cfg.limit d.remaining d.reset
        { result := h.1
        , trace := [.bindingResolve, .decisionCall, .errorCall (some (cfg.limit, d.remaining, d.reset))]
        , headers := h.2 }
      else
        let h := runSuccessHandlerKV cfg.successHandler env.nowMs cfg.limit d.remaining d.reset
        { result := tryFinallyResult (nextOutcome env) h.1
        , trace := [.bindingResolve, .decisionCall, .nextCall, .successCall (some (cfg.limit, d.remaining, d.reset))]
        , headers := h.2 }

/-- The rateLimiter middleware body from RateLimiter.js: skip on a falsy key; resolve
and assert the binding; call the limit() decision of the binding; on failure run the
error handler with the context only and return; on success run next inside try with
the success handler in the finally block. -/
def rateLimiter (cfg : RLConfig) (env : ReqEnv) : RunOut :=
  if jsTruthy env.keyResult = false then
    { result := nextOutcome env, trace := [.nextCall], headers := [] }
  else
    let rlBinding := getBinding env cfg.binding
    if rlBindingOk rlBinding = false then
      { result := .error (.typeError rlBindingRuntimeMsg), trace := [.bindingResolve], headers := [] }
    else
      let d := env.decision
      if d.success = false then
        { result := runErrorHandlerRL cfg.errorHandler
        , trace := [.bindingResolve, .decisionCall, .errorCall none]
        , headers := [] }
      else
        { result := tryFinallyResult (nextOutcome env) (runSuccessHandlerRL cfg.successHandler)
        , trace := [.bindingResolve, .decisionCall, .nextCall, .successCall none]
        , headers := [] }

/-- Number of downstream-processing invocations in a trace. -/
def countNextCalls : List Event → Nat
  | [] => 0
  | .nextCall :: t => countNextCalls t + 1
  | _ :: t => countNextCalls t

/-- Whether a handler specification completes without raising. -/
def handlerCompletes : HandlerSpec → Bool
  | .defaultHandler => true
  | .custom none => true
  | .custom (some _) => false

/-- Fixture: a fully capable resolved KV/service binding. -/
def bvFull : BindingVal := { truthy := true, hasGet := true, hasPut := true, hasLimit := true }

/-- Fixture: a nullish binding resolution (missing environment entry or null factory result). -/
def bvMissing : BindingVal := { truthy := false, hasGet := false, hasPut := false, hasLimit := false }

/-- Fixture: a request environment with a truthy key, a capable factory binding, a
successful decision, completing downstream processing, and a fixed clock. -/
def envW : ReqEnv :=
  { keyResult := .strVal "ip"
  , envMap := fun _ => bvMissing
  , factoryResult := bvFull
  , decision := { success := true, remaining := 4, reset := 10 }
  , nextThrows := none
  , nowMs := 1700000000123 }

/-- Fixture: a window-counter configuration with factory binding and default handlers. -/
def kcfgW : KVConfig :=
  { binding := .factory, prefixStr := "ratelimit:", limit := 5, period := 60, interval := 0
  , successHandler := .defaultHandler, errorHandler := .defaultHandler }

/-- Fixture: a service-backed configuration with factory binding and default handlers. -/
def rcfgW : RLConfig :=
  { binding := .factory, successHandler := .defaultHandler, errorHandler := .defaultHandler }

/-- Fixture: the C3 counterexample options, identical to a valid boundary configuration
except that the binding is the empty string. -/
def oCex : KVOptions :=
  { binding := .strVal "", prefixStr := .undefined, limit := .numVal (.int 1)
  , period := .numVal (.int 60), interval := .undefined
  , keyGenerator := .funcVal, successHandler := .undefined, errorHandler := .undefined }

/-- Fixture: boundary options with limit 1, period 60 and interval equal to period. -/
def oBoundary : KVOptions :=
  { binding := .strVal "KV", prefixStr := .undefined, limit := .numVal (.int 1)
  , period := .numVal (.int 60), interval := .numVal (.int 60)
  , keyGenerator := .funcVal, successHandler := .undefined, errorHandler := .undefined }

/-- Fixture: options whose numeric fields are numeric-like strings. -/
def oNum : KVOptions :=
  { binding := .strVal "KV", prefixStr := .undefined, limit := .strVal "5"
  , period := .strVal " 60s", interval := .strVal "0x0"
  , keyGenerator := .funcVal, successHandler := .undefined, errorHandler := .undefined }

/-- The absolute reset timestamp is exactly the ceiled epoch second plus the raw reset. -/
theorem resetEpoch_eq_epochCeil_add (nowMs : Nat) (r : Int) :
    resetEpoch nowMs r = epochCeil nowMs + r := by
  unfold resetEpoch epochCeil
  have h : (nowMs : Int) + 1000 * r + 999 = ((nowMs : Int) + 999) + r * 1000 := by ring
  rw [h, Int.add_mul_ediv_right _ _ (by norm_num : (1000 : Int) ≠ 0)]

/-- A completing window-counter success handler leaves the try body outcome unchanged. -/
theorem tryFinally_completes_kv (h : HandlerSpec) (hc : handlerCompletes h = true)
    (nowMs : Nat) (l r rst : Int) (b : Except JSErr Unit) :
    tryFinallyResult b (runSuccessHandlerKV h nowMs l r rst).1 = b := by
  cases h with
  | defaultHandler => rfl
  | custom o =>
    cases o with
    | none => rfl
    | some e => simp [handlerCompletes] at hc

/-- A completing service-backed success handler leaves the try body outcome unchanged. -/
theorem tryFinally_completes_rl (h : HandlerSpec) (hc : handlerCompletes h = true)
    (b : Except JSErr Unit) :
    tryFinallyResult b (runSuccessHandlerRL h) = b := by
  cases h with
  | defaultHandler => rfl
  | custom o =>
    cases o with
    | none => rfl
    | some e => simp [handlerCompletes] at hc

/-- C1: for every request where the key generator returns a falsy value, both middleware
strategies invoke downstream processing exactly once and return its outcome, performing
no binding resolution, no decision call, and no handler invocation (the trace is exactly
one downstream call). -/
theorem claim_C1 (kcfg : KVConfig) (rcfg : RLConfig) (env env2 : ReqEnv)
    (hk : jsTruthy env.keyResult = false) (hk2 : jsTruthy env2.keyResult = false) :
    ((kvRateLimiter kcfg env).trace = [Event.nextCall]
      ∧ countNextCalls (kvRateLimiter kcfg env).trace = 1
      ∧ (kvRateLimiter kcfg env).result = nextOutcome env)
    ∧ ((rateLimiter rcfg env2).trace = [Event.nextCall]
      ∧ countNextCalls (rateLimiter rcfg env2).trace = 1
      ∧ (rateLimiter rcfg env2).result = nextOutcome env2) := by
  refine ⟨⟨?_, ?_, ?_⟩, ⟨?_, ?_, ?_⟩⟩ <;>
    simp [kvRateLimiter, rateLimiter, hk, hk2, countNextCalls]

/-- Witness for C1: a null key (one of the falsy values) at a concrete configuration. -/
theorem claim_C1_witness :
    jsTruthy JSVal.nullVal = false
    ∧ (((kvRateLimiter kcfgW { envW with keyResult := .nullVal }).trace = [Event.nextCall]
        ∧ countNextCalls (kvRateLimiter kcfgW { envW with keyResult := .nullVal }).trace = 1
        ∧ (kvRateLimiter kcfgW { envW with keyResult := .nullVal }).result
            = nextOutcome { envW with keyResult := .nullVal })
      ∧ ((rateLimiter rcfgW { envW with keyResult := .nullVal }).trace = [Event.nextCall]
        ∧ countNextCalls (rateLimiter rcfgW { envW with keyResult := .nullVal }).trace = 1
        ∧ (rateLimiter rcfgW { envW with keyResult := .nullVal }).result
            = nextOutcome { envW with keyResult := .nullVal })) :=
  ⟨rfl, claim_C1 kcfgW rcfgW { envW with keyResult := .nullVal }
      { envW with keyResult := .nullVal } rfl rfl⟩

/-- C2: on a successful decision, both strategies invoke downstream processing and then
invoke the success handler afterwards unconditionally; when the handler completes, the
run outcome is exactly the downstream outcome, so an error raised by downstream
processing propagates to the caller unchanged and a normal downstream return stays a
normal return. -/
theorem claim_C2 (kcfg : KVConfig) (rcfg : RLConfig) (env env2 : ReqEnv)
    (hk : jsTruthy env.keyResult = true)
    (hb : kvBindingOk (getBinding env kcfg.binding) = true)
    (hs : env.decision.success = true)
    (hc : handlerCompletes kcfg.successHandler = true)
    (hk2 : jsTruthy env2.keyResult = true)
    (hb2 : rlBindingOk (getBinding env2 rcfg.binding) = true)
    (hs2 : env2.decision.success = true)
    (hc2 : handlerCompletes rcfg.successHandler = true) :
    ((kvRateLimiter kcfg env).trace
        = [Event.bindingResolve, Event.decisionCall, Event.nextCall,
           Event.successCall (some (kcfg.limit, env.decision.remaining, env.decision.reset))]
      ∧ (kvRateLimiter kcfg env).result = nextOutcome env)
    ∧ ((rateLimiter rcfg env2).trace
        = [Event.bindingResolve, Event.decisionCall, Event.nextCall, Event.successCall none]
      ∧ (rateLimiter rcfg env2).result = nextOutcome env2) := by
  refine ⟨⟨?_, ?_⟩, ⟨?_, ?_⟩⟩ <;>
    simp [kvRateLimiter, rateLimiter, hk, hb, hs, hk2, hb2, hs2,
      tryFinally_completes_kv kcfg.successHandler hc,
      tryFinally_completes_rl rcfg.successHandler hc2]

/-- Witness for C2: downstream processing raises a concrete error during a successful
decision; the success handler (the default, which completes) runs and the original
error is the run outcome. -/
theorem claim_C2_witness :
    jsTruthy (JSVal.strVal "ip") = true
    ∧ kvBindingOk bvFull = true
    ∧ (((kvRateLimiter kcfgW { envW with nextThrows := some (.userError 7) }).trace
        = [Event.bindingResolve, Event.decisionCall, Event.nextCall,
           Event.successCall (some (5, 4, 10))]
      ∧ (kvRateLimiter kcfgW { envW with nextThrows := some (.userError 7) }).result
          = nextOutcome { envW with nextThrows := some (.userError 7) })
    ∧ ((rateLimiter rcfgW { envW with nextThrows := some (.userError 7) }).trace
        = [Event.bindingResolve, Event.decisionCall, Event.nextCall, Event.successCall none]
      ∧ (rateLimiter rcfgW { envW with nextThrows := some (.userError 7) }).result
          = nextOutcome { envW with nextThrows := some (.userError 7) })) :=
  ⟨rfl, rfl, claim_C2 kcfgW rcfgW { envW with nextThrows := some (.userError 7) }
      { envW with nextThrows := some (.userError 7) } rfl rfl rfl rfl rfl rfl rfl rfl⟩

/-- C4: for the window-counter strategy, a failed decision skips downstream processing
and the default error handler raises the 429 "Too Many Requests" error whose headers
are the stringified limit, remaining, the ceiling of the epoch second plus reset (hence
at least the epoch second plus reset), and Retry-After equal to the raw reset seconds. -/
theorem claim_C4 (cfg : KVConfig) (env : ReqEnv)
    (hk : jsTruthy env.keyResult = true)
    (hb : kvBindingOk (getBinding env cfg.binding) = true)
    (hs : env.decision.success = false)
    (he : cfg.errorHandler = .defaultHandler) :
    (kvRateLimiter cfg env).result = .error (.httpError 429 "Too Many Requests"
      [ ("X-RateLimit-Limit", toString cfg.limit)
      , ("X-RateLimit-Remaining", toString env.decision.remaining)
      , ("X-RateLimit-Reset", toString (resetEpoch env.nowMs env.decision.reset))
      , ("Retry-After", toString env.decision.reset) ])
    ∧ countNextCalls (kvRateLimiter cfg env).trace = 0
    ∧ resetEpoch env.nowMs env.decision.reset = epochCeil env.nowMs + env.decision.reset
    ∧ epochCeil env.nowMs + env.decision.reset ≤ resetEpoch env.nowMs env.decision.reset := by
  refine ⟨?_, ?_, resetEpoch_eq_epochCeil_add env.nowMs env.decision.reset,
    le_of_eq (resetEpoch_eq_epochCeil_add env.nowMs env.decision.reset).symm⟩ <;>
  simp [kvRateLimiter, hk, hb, hs, he, runErrorHandlerKV, defaultErrorHeaders, countNextCalls]

/-- Witness for C4: the spec test configuration limit 5 with decision
success false, remaining 0, reset 5 at a fixed clock. -/
theorem claim_C4_witness :
    jsTruthy (JSVal.strVal "ip") = true
    ∧ ((kvRateLimiter kcfgW { envW with decision := ⟨false, 0, 5⟩ }).result
        = .error (.httpError 429 "Too Many Requests"
          [ ("X-RateLimit-Limit", toString (5 : Int))
          , ("X-RateLimit-Remaining", toString (0 : Int))
          , ("X-RateLimit-Reset", toString (resetEpoch 1700000000123 5))
          , ("Retry-After", toString (5 : Int)) ])
      ∧ countNextCalls (kvRateLimiter kcfgW { envW with decision := ⟨false, 0, 5⟩ }).trace = 0
      ∧ resetEpoch 1700000000123 5 = epochCeil 1700000000123 + 5
      ∧ epochCeil 1700000000123 + 5 ≤ resetEpoch 1700000000123 5) :=
  ⟨rfl, claim_C4 kcfgW { envW with decision := ⟨false, 0, 5⟩ } rfl rfl rfl rfl⟩

/-- C5: for the service-backed strategy, a failed decision never invokes downstream
processing; the error handler is invoked with the request context only (no limit,
remaining or reset arguments); with the default error handler the run raises the 429
"Too Many Requests" error carrying no custom headers, and no response header is set. -/
theorem claim_C5 (cfg : RLConfig) (env : ReqEnv)
    (hk : jsTruthy env.keyResult = true)
    (hb : rlBindingOk (getBinding env cfg.binding) = true)
    (hs : env.decision.success = false) :
    countNextCalls (rateLimiter cfg env).trace = 0
    ∧ (rateLimiter cfg env).trace = [Event.bindingResolve, Event.decisionCall, Event.errorCall none]
    ∧ (cfg.errorHandler = .defaultHandler →
        (rateLimiter cfg env).result = .error (.httpError 429 "Too Many Requests" [])
        ∧ (rateLimiter cfg env).headers = []) := by
  refine ⟨?_, ?_, fun he => ⟨?_, ?_⟩⟩
  · simp [rateLimiter, hk, hb, hs, countNextCalls]
  · simp [rateLimiter, hk, hb, hs]
  · simp [rateLimiter, hk, hb, hs, he, runErrorHandlerRL]
  · simp [rateLimiter, hk, hb, hs]

/-- Witness for C5: a concrete service-backed rejection with the default error handler. -/
theorem claim_C5_witness :
    rlBindingOk bvFull = true
    ∧ (countNextCalls (rateLimiter rcfgW { envW with decision := ⟨false, 0, 0⟩ }).trace = 0
      ∧ (rateLimiter rcfgW { envW with decision := ⟨false, 0, 0⟩ }).trace
          = [Event.bindingResolve, Event.decisionCall, Event.errorCall none]
      ∧ (rcfgW.errorHandler = .defaultHandler →
          (rateLimiter rcfgW { envW with decision := ⟨false, 0, 0⟩ }).result
            = .error (.httpError 429 "Too Many Requests" [])
          ∧ (rateLimiter rcfgW { envW with decision := ⟨false, 0, 0⟩ }).headers = [])) :=
  ⟨rfl, claim_C5 rcfgW { envW with decision := ⟨false, 0, 0⟩ } rfl rfl rfl⟩

/-- C6: in both strategies, when the configured binding (a name looked up in the
request environment, or a factory invoked with the context) resolves to a nullish or
capability-incomplete value, the run raises the binding TypeError to the caller: no
decision call, no downstream call, no handler invocation, and the failure is never the
429 rate-limit error. -/
theorem claim_C6 (kcfg : KVConfig) (rcfg : RLConfig) (env env2 : ReqEnv)
    (hk : jsTruthy env.keyResult = true)
    (hb : kvBindingOk (getBinding env kcfg.binding) = false)
    (hk2 : jsTruthy env2.keyResult = true)
    (hb2 : rlBindingOk (getBinding env2 rcfg.binding) = false) :
    (kvRateLimiter kcfg env).result = .error (.typeError kvBindingRuntimeMsg)
    ∧ (kvRateLimiter kcfg env).trace = [Event.bindingResolve]
    ∧ (∀ st m hs, (kvRateLimiter kcfg env).result ≠ .error (.httpError st m hs))
    ∧ (rateLimiter rcfg env2).result = .error (.typeError rlBindingRuntimeMsg)
    ∧ (rateLimiter rcfg env2).trace = [Event.bindingResolve]
    ∧ (∀ st m hs, (rateLimiter rcfg env2).result ≠ .error (.httpError st m hs)) := by
  refine ⟨?_, ?_, ?_, ?_, ?_, ?_⟩ <;>
  simp [kvRateLimiter, rateLimiter, hk, hb, hk2, hb2]

/-- Witness for C6: a string binding name absent from the request environment for the
window-counter strategy, and a factory returning a nullish value for the service-backed
strategy; neither failure is the 429 error. -/
theorem claim_C6_witness :
    kvBindingOk bvMissing = false
    ∧ (kvRateLimiter { kcfgW with binding := .name "NONEXISTENT_KV" } envW).result
        = .error (.typeError kvBindingRuntimeMsg)
    ∧ (kvRateLimiter { kcfgW with binding := .name "NONEXISTENT_KV" } envW).trace
        = [Event.bindingResolve]
    ∧ (kvRateLimiter { kcfgW with binding := .name "NONEXISTENT_KV" } envW).result
        ≠ .error (.httpError 429 "Too Many Requests" [])
    ∧ (rateLimiter rcfgW { envW with factoryResult := bvMissing }).result
        = .error (.typeError rlBindingRuntimeMsg)
    ∧ (rateLimiter rcfgW { envW with factoryResult := bvMissing }).trace
        = [Event.bindingResolve]
    ∧ (rateLimiter rcfgW { envW with factoryResult := bvMissing }).result
        ≠ .error (.httpError 429 "Too Many Requests" []) :=
  have h := claim_C6 { kcfgW with binding := .name "NONEXISTENT_KV" } rcfgW envW
    { envW with factoryResult := bvMissing } rfl rfl rfl rfl
  ⟨rfl, h.1, h.2.1, h.2.2.1 429 "Too Many Requests" [], h.2.2.2.1, h.2.2.2.2.1,
    h.2.2.2.2.2 429 "Too Many Requests" []⟩

/-- C9: for the window-counter strategy, a successful decision runs downstream
processing exactly once, with the default success handler invoked afterwards; the
response headers set are exactly the stringified limit, remaining, and the ceiling of
the epoch second plus reset (hence at least the epoch second plus reset). -/
theorem claim_C9 (cfg : KVConfig) (env : ReqEnv)
    (hk : jsTruthy env.keyResult = true)
    (hb : kvBindingOk (getBinding env cfg.binding) = true)
    (hs : env.decision.success = true)
    (hd : cfg.successHandler = .defaultHandler) :
    countNextCalls (kvRateLimiter cfg env).trace = 1
    ∧ (kvRateLimiter cfg env).trace
        = [Event.bindingResolve, Event.decisionCall, Event.nextCall,
           Event.successCall (some (cfg.limit, env.decision.remaining, env.decision.reset))]
    ∧ (kvRateLimiter cfg env).headers
        = [ ("X-RateLimit-Limit", toString cfg.limit)
          , ("X-RateLimit-Remaining", toString env.decision.remaining)
          , ("X-RateLimit-Reset", toString (resetEpoch env.nowMs env.decision.reset)) ]
    ∧ resetEpoch env.nowMs env.decision.reset = epochCeil env.nowMs + env.decision.reset
    ∧ epochCeil env.nowMs + env.decision.reset ≤ resetEpoch env.nowMs env.decision.reset := by
  refine ⟨?_, ?_, ?_, resetEpoch_eq_epochCeil_add env.nowMs env.decision.reset,
    le_of_eq (resetEpoch_eq_epochCeil_add env.nowMs env.decision.reset).symm⟩ <;>
  simp [kvRateLimiter, hk, hb, hs, hd, runSuccessHandlerKV, defaultSuccessHeaders, countNextCalls]

/-- Witness for C9: the spec test configuration limit 5 with decision success true,
remaining 4, reset 10 at a fixed clock. -/
theorem claim_C9_witness :
    jsTruthy (JSVal.strVal "ip") = true
    ∧ (countNextCalls (kvRateLimiter kcfgW envW).trace = 1
      ∧ (kvRateLimiter kcfgW envW).trace
          = [Event.bindingResolve, Event.decisionCall, Event.nextCall,
             Event.successCall (some (5, 4, 10))]
      ∧ (kvRateLimiter kcfgW envW).headers
          = [ ("X-RateLimit-Limit", toString (5 : Int))
            , ("X-RateLimit-Remaining", toString (4 : Int))
            , ("X-RateLimit-Reset", toString (resetEpoch 1700000000123 10)) ]
      ∧ resetEpoch 1700000000123 10 = epochCeil 1700000000123 + 10
      ∧ epochCeil 1700000000123 + 10 ≤ resetEpoch 1700000000123 10) :=
  ⟨rfl, claim_C9 kcfgW envW rfl rfl rfl rfl⟩

/-- C10: the window-counter middleware passes the decision outcome through unmodified:
for any request with a truthy key and usable binding, the argument triple handed to the
error handler on failure, and to the success handler on success, is exactly the
configured (coerced) limit together with the remaining and reset values the counting
primitive returned. -/
theorem claim_C10 (cfg : KVConfig) (env : ReqEnv)
    (hk : jsTruthy env.keyResult = true)
    (hb : kvBindingOk (getBinding env cfg.binding) = true) :
    (env.decision.success = false →
      (kvRateLimiter cfg env).trace
        = [Event.bindingResolve, Event.decisionCall,
           Event.errorCall (some (cfg.limit, env.decision.remaining, env.decision.reset))])
    ∧ (env.decision.success = true →
      (kvRateLimiter cfg env).trace
        = [Event.bindingResolve, Event.decisionCall, Event.nextCall,
           Event.successCall (some (cfg.limit, env.decision.remaining, env.decision.reset))]) := by
  refine ⟨fun hs => ?_, fun hs => ?_⟩ <;>
  simp [kvRateLimiter, hk, hb, hs]

/-- Witness for C10: concrete failing and succeeding decisions whose remaining and
reset values reappear verbatim in the handler argument triples. -/
theorem claim_C10_witness :
    (kvRateLimiter kcfgW { envW with decision := ⟨false, 2, 37⟩ }).trace
      = [Event.bindingResolve, Event.decisionCall, Event.errorCall (some (5, 2, 37))]
    ∧ (kvRateLimiter kcfgW envW).trace
      = [Event.bindingResolve, Event.decisionCall, Event.nextCall,
         Event.successCall (some (5, 4, 10))] :=
  ⟨(claim_C10 kcfgW { envW with decision := ⟨false, 2, 37⟩ } rfl rfl).1 rfl,
   (claim_C10 kcfgW envW rfl rfl).2 rfl⟩

/-- A finiteness-and-bound check forces the bound on the integer content. -/
theorem numToInt_ge_of_check (p : JSNumber) (k : Int)
    (h : (numIsFinite p && numGe p k) = true) : k ≤ numToInt p := by
  cases p with
  | nan => simp [numIsFinite] at h
  | int i => simpa [numIsFinite, numGe, numToInt] using h

/-- A numLe check forces the ordering of the integer contents. -/
theorem numToInt_le_of_numLe (a b : JSNumber) (h : numLe a b = true) :
    numToInt a ≤ numToInt b := by
  cases a <;> cases b <;> simp_all [numLe, numToInt]

/-- A finite embedded number is the integer of its content. -/
theorem finite_eq_int (p : JSNumber) (h : numIsFinite p = true) :
    p = .int (numToInt p) := by
  cases p <;> simp_all [numIsFinite, numToInt]

/-- C7: both validators check the constraints in the fixed order of the spec and
short-circuit: the raised message is always the message of the first violated
constraint of the ordered list, and, with an earlier constraint violated, the later
constraints cannot influence the outcome. -/
theorem claim_C7 : ∀ (o : KVOptions) (ro : RLOptions),
    validationError (KVRateLimiter_validate o) = firstFailMsg (kvChecks o)
    ∧ validationError (RateLimiter_validate ro) = firstFailMsg (rlChecks ro) := by
  intro o ro
  constructor
  · by_cases h1 : kvCheckBinding o = false <;>
    by_cases h2 : kvCheckPrefix o = false <;>
    by_cases h3 : kvCheckLimit o = false <;>
    by_cases h4 : kvCheckPeriod o = false <;>
    by_cases h5 : kvCheckInterval o = false <;>
    by_cases h6 : kvCheckIntervalPeriod o = false <;>
    by_cases h7 : kvCheckKeyGenerator o = false <;>
    by_cases h8 : kvCheckSuccessHandler o = false <;>
    by_cases h9 : kvCheckErrorHandler o = false <;>
    simp_all [KVRateLimiter_validate, kvChecks, firstFailMsg, validationError]
  · by_cases h1 : rlCheckBinding ro = false <;>
    by_cases h2 : rlCheckKeyGenerator ro = false <;>
    by_cases h3 : rlCheckSuccessHandler ro = false <;>
    by_cases h4 : rlCheckErrorHandler ro = false <;>
    simp_all [RateLimiter_validate, rlChecks, firstFailMsg, validationError]

/-- Counterexample for C3 as stated: with the empty string as binding, limit 1,
period 60 and a callable keyGenerator, the claim lists the binding invariant as
violated (an empty string is neither a non-empty string nor a callable), so it
predicts a construction failure; the code checks only typeof and accepts it. -/
theorem claim_C3_cex :
    origViolatedC3 oCex = true
    ∧ validationError (KVRateLimiter_validate oCex) = none := by
  decide

/-- C3 (amended): construction of the window-counter middleware fails with a
TypeError exactly when a checked constraint is violated, where the binding constraint
accepts any string or callable (the empty string included) and the keyGenerator
constraint requires a callable also when the field is absent; moreover a validated
configuration always satisfies the numeric invariants, so a violated invariant never
reaches request handling. -/
theorem claim_C3 (o : KVOptions) :
    (validationError (KVRateLimiter_validate o)).isSome = amendedViolatedKV o
    ∧ (∀ c, KVRateLimiter_validate o = .ok c →
        1 ≤ c.limit ∧ 60 ≤ c.period ∧ 0 ≤ c.interval ∧ c.interval ≤ c.period) := by
  constructor
  · by_cases h1 : kvCheckBinding o = false <;>
    by_cases h2 : kvCheckPrefix o = false <;>
    by_cases h3 : kvCheckLimit o = false <;>
    by_cases h4 : kvCheckPeriod o = false <;>
    by_cases h5 : kvCheckInterval o = false <;>
    by_cases h6 : kvCheckIntervalPeriod o = false <;>
    by_cases h7 : kvCheckKeyGenerator o = false <;>
    by_cases h8 : kvCheckSuccessHandler o = false <;>
    by_cases h9 : kvCheckErrorHandler o = false <;>
    simp_all [KVRateLimiter_validate, validationError, amendedViolatedKV]
  · intro c h
    rw [KVRateLimiter_validate] at h
    repeat' split at h
    all_goals try (exact Except.noConfusion h)
    rename_i h1 h2 h3 h4 h5 h6 h7 h8 h9
    have hc := Except.ok.inj h
    rw [← hc]
    exact ⟨numToInt_ge_of_check _ 1 (by simpa [kvCheckLimit] using h3),
           numToInt_ge_of_check _ 60 (by simpa [kvCheckPeriod] using h4),
           numToInt_ge_of_check _ 0 (by simpa [kvCheckInterval] using h5),
           numToInt_le_of_numLe _ _ (by simpa [kvCheckIntervalPeriod] using h6)⟩

/-- Witness for C3: the boundary configuration limit 1, period 60, interval equal to
period violates no constraint, is accepted, and its validated values satisfy the
invariants. -/
theorem claim_C3_witness :
    amendedViolatedKV oBoundary = false
    ∧ (validationError (KVRateLimiter_validate oBoundary)).isSome = false
    ∧ (1 ≤ ({ prefixStr := "ratelimit:", limit := 1, period := 60, interval := 60 } : KVValidated).limit
      ∧ 60 ≤ ({ prefixStr := "ratelimit:", limit := 1, period := 60, interval := 60 } : KVValidated).period
      ∧ 0 ≤ ({ prefixStr := "ratelimit:", limit := 1, period := 60, interval := 60 } : KVValidated).interval
      ∧ ({ prefixStr := "ratelimit:", limit := 1, period := 60, interval := 60 } : KVValidated).interval
          ≤ ({ prefixStr := "ratelimit:", limit := 1, period := 60, interval := 60 } : KVValidated).period) :=
  ⟨by decide,
   by rw [(claim_C3 oBoundary).1]; decide,
   (claim_C3 oBoundary).2 { prefixStr := "ratelimit:", limit := 1, period := 60, interval := 60 } rfl⟩

/-- C8: the numeric options are coerced with parseInt semantics before the range
checks: a validated configuration stores exactly the parseInt images of limit, period
and defaulted interval; and a field whose coercion is NaN makes validation behave
exactly as the same options with an out-of-range value in that field (0 for limit and
period, -1 for interval), producing the same field-specific range error. -/
theorem claim_C8 :
    (∀ (o : KVOptions) (c : KVValidated), KVRateLimiter_validate o = .ok c →
        jsParseInt o.limit = .int c.limit
        ∧ jsParseInt o.period = .int c.period
        ∧ jsParseInt (kvIntervalVal o) = .int c.interval)
    ∧ (∀ o : KVOptions, jsParseInt o.limit = .nan →
        KVRateLimiter_validate o = KVRateLimiter_validate { o with limit := .numVal (.int 0) })
    ∧ (∀ o : KVOptions, jsParseInt o.period = .nan →
        KVRateLimiter_validate o = KVRateLimiter_validate { o with period := .numVal (.int 0) })
    ∧ (∀ o : KVOptions, jsParseInt (kvIntervalVal o) = .nan →
        KVRateLimiter_validate o = KVRateLimiter_validate { o with interval := .numVal (.int (-1)) }) := by
  refine ⟨fun o c h => ?_, fun o h => ?_, fun o h => ?_, fun o h => ?_⟩
  · rw [KVRateLimiter_validate] at h
    repeat' split at h
    all_goals try (exact Except.noConfusion h)
    rename_i h1 h2 h3 h4 h5 h6 h7 h8 h9
    have hc := Except.ok.inj h
    rw [← hc]
    refine ⟨?_, ?_, ?_⟩
    · exact finite_eq_int _ (by revert h3; cases hq : numIsFinite (jsParseInt o.limit) <;>
        simp [kvCheckLimit, hq])
    · exact finite_eq_int _ (by revert h4; cases hq : numIsFinite (jsParseInt o.period) <;>
        simp [kvCheckPeriod, hq])
    · exact finite_eq_int _ (by revert h5; cases hq : numIsFinite (jsParseInt (kvIntervalVal o)) <;>
        simp [kvCheckInterval, hq])
  · have hl : kvCheckLimit o = false := by simp [kvCheckLimit, h, numIsFinite]
    have hl2 : kvCheckLimit { o with limit := .numVal (.int 0) } = false := rfl
    have e1 : kvCheckBinding { o with limit := .numVal (.int 0) } = kvCheckBinding o := rfl
    have e2 : kvCheckPrefix { o with limit := .numVal (.int 0) } = kvCheckPrefix o := rfl
    rw [KVRateLimiter_validate, KVRateLimiter_validate, hl, hl2, e1, e2]
    simp
  · have hp : kvCheckPeriod o = false := by simp [kvCheckPeriod, h, numIsFinite]
    have hp2 : kvCheckPeriod { o with period := .numVal (.int 0) } = false := rfl
    have e1 : kvCheckBinding { o with period := .numVal (.int 0) } = kvCheckBinding o := rfl
    have e2 : kvCheckPrefix { o with period := .numVal (.int 0) } = kvCheckPrefix o := rfl
    have e3 : kvCheckLimit { o with period := .numVal (.int 0) } = kvCheckLimit o := rfl
    rw [KVRateLimiter_validate, KVRateLimiter_validate, hp, hp2, e1, e2, e3]
    simp
  · have hi : kvCheckInterval o = false := by simp [kvCheckInterval, h, numIsFinite]
    have hi2 : kvCheckInterval { o with interval := .numVal (.int (-1)) } = false := rfl
    have e1 : kvCheckBinding { o with interval := .numVal (.int (-1)) } = kvCheckBinding o := rfl
    have e2 : kvCheckPrefix { o with interval := .numVal (.int (-1)) } = kvCheckPrefix o := rfl
    have e3 : kvCheckLimit { o with interval := .numVal (.int (-1)) } = kvCheckLimit o := rfl
    have e4 : kvCheckPeriod { o with interval := .numVal (.int (-1)) } = kvCheckPeriod o := rfl
    rw [KVRateLimiter_validate, KVRateLimiter_validate, hi, hi2, e1, e2, e3, e4]
    simp

/-- Witness for C8: numeric-like strings "5", " 60s" and "0x0" are coerced to 5, 60
and 0 and accepted; replacing any single numeric field by the non-numeric string "abc"
makes validation behave exactly as the out-of-range value for that field. -/
theorem claim_C8_witness :
    (jsParseInt oNum.limit = .int 5
      ∧ jsParseInt oNum.period = .int 60
      ∧ jsParseInt (kvIntervalVal oNum) = .int 0)
    ∧ KVRateLimiter_validate { oNum with limit := .strVal "abc" }
        = KVRateLimiter_validate { { oNum with limit := .strVal "abc" } with limit := .numVal (.int 0) }
    ∧ KVRateLimiter_validate { oNum with period := .strVal "abc" }
        = KVRateLimiter_validate { { oNum with period := .strVal "abc" } with period := .numVal (.int 0) }
    ∧ KVRateLimiter_validate { oNum with interval := .strVal "abc" }
        = KVRateLimiter_validate { { oNum with interval := .strVal "abc" } with interval := .numVal (.int (-1)) } :=
  ⟨claim_C8.1 oNum { prefixStr := "ratelimit:", limit := 5, period := 60, interval := 0 } rfl,
   claim_C8.2.1 { oNum with limit := .strVal "abc" } rfl,
   claim_C8.2.2.1 { oNum with period := .strVal "abc" } rfl,
   claim_C8.2.2.2 { oNum with interval := .strVal "abc" } rfl⟩
